import Mathlib

/-!
Verification of the Code-Sharing repository: a Vue component wrapping the
Monaco editor widget plus a composable state container (useEditor).

The state container (src/src/assets/composables/useEditor.js) is embedded as
a record of the four refs it allocates, with each setter a pure state
transformer. A call to useEditor allocates fresh refs, so calls are modelled
against a heap of stores: each call appends a fresh store and returns its
index (the handle).

The editor panel (src/src/components/CodeEditor.vue) contributes the menu
handlers (changeLanguage, changeTheme), the worker-url mapping configured on
mount (getWorkerUrl), and the share action (shareCode), whose DOM and
clipboard side effects are embedded as an event trace.
-/

namespace CodeSharing

/-- The four pieces of state allocated by one call to useEditor:
currentLanguage, currentTheme, currentLink and defaultCode refs. -/
structure EditorState where
  currentLanguage : String
  currentTheme : String
  currentLink : String
  defaultCode : String
deriving Repr, DecidableEq

/-- The initial value of the defaultCode ref: the HTML sample template
literal at useEditor.js lines 8-25. -/
def defaultHtmlSample : String :=
  "<html>\n  <head>\n    <title>HTML Sample</title>\n    <meta http-equiv=\"X-UA-Compatible\" content=\"IE=edge\" />\n    <style type=\"text/css\">\n      h1 \x7b\n        color: #cca3a3;\n      \x7d\n    </style>\n    <script type=\"text/javascript\">\n      alert(\"I am a sample... visit devChallengs.io for more projects\");\n    </script>\n  </head>\n  <body>\n    <h1>Heading No.1</h1>\n    <input disabled type=\"button\" value=\"Click me\" />\n  </body>\n</html>"

/-- The store a single call to useEditor allocates: the initial values of
the four refs (useEditor.js lines 4-25). -/
def useEditor : EditorState :=
  { currentLanguage := "html"
    currentTheme := "vs-dark"
    currentLink := ""
    defaultCode := defaultHtmlSample }

/-- JS String.prototype.toLowerCase, character-wise over the string's
characters. -/
def toLowerCase (s : String) : String :=
  String.mk (s.data.map Char.toLower)

/-- setLanguage (useEditor.js lines 27-29): lowercases and stores. -/
def setLanguage (st : EditorState) (language : String) : EditorState :=
  { st with currentLanguage := toLowerCase language }

/-- setTheme (useEditor.js lines 31-33): the literal "Dark" maps to
"vs-dark", anything else to "vs". -/
def setTheme (st : EditorState) (theme : String) : EditorState :=
  { st with currentTheme := if theme = "Dark" then "vs-dark" else "vs" }

/-- setLink (useEditor.js lines 35-37): stores verbatim. -/
def setLink (st : EditorState) (link : String) : EditorState :=
  { st with currentLink := link }

/-- setCode (useEditor.js lines 39-41): stores verbatim. -/
def setCode (st : EditorState) (newCode : String) : EditorState :=
  { st with defaultCode := newCode }

/-- The heap of stores allocated by calls to useEditor on one page. -/
structure Heap where
  stores : List EditorState
deriving Repr, DecidableEq

/-- One call to useEditor: allocates a fresh store (fresh refs, since the
refs are created inside the function body) and returns its handle, the
index of the new store. -/
def useEditorCall (h : Heap) : Heap × Nat :=
  (⟨h.stores ++ [useEditor]⟩, h.stores.length)

/-- Update the store at index i, leaving the others untouched. -/
def setStores : List EditorState → Nat → (EditorState → EditorState) → List EditorState
  | [], _, _ => []
  | s :: rest, 0, f => f s :: rest
  | s :: rest, i + 1, f => s :: setStores rest i f

/-- Mutate through a handle: call setLanguage on the store of handle i. -/
def setLanguageAt (h : Heap) (i : Nat) (lang : String) : Heap :=
  ⟨setStores h.stores i (fun st => setLanguage st lang)⟩

/-- Read the store of handle i. -/
def getStoreAt (h : Heap) (i : Nat) : Option EditorState :=
  h.stores[i]?

/-- Read the currentLanguage ref through handle i. -/
def getLanguageAt (h : Heap) (i : Nat) : Option String :=
  (h.stores[i]?).map (fun st => st.currentLanguage)

/-- The panel's reactive state: the store returned by its useEditor call
and the two dropdown visibility flags (CodeEditor.vue lines 26-33). -/
structure PanelState where
  store : EditorState
  showLanguages : Bool
  showThemes : Bool
deriving Repr, DecidableEq

/-- changeLanguage (CodeEditor.vue lines 120-123): calls the store's
setLanguage and closes the language menu. -/
def changeLanguage (p : PanelState) (language : String) : PanelState :=
  { p with store := setLanguage p.store language, showLanguages := false }

/-- changeTheme (CodeEditor.vue lines 126-129): calls the store's setTheme
and closes the theme menu. -/
def changeTheme (p : PanelState) (theme : String) : PanelState :=
  { p with store := setTheme p.store theme, showThemes := false }

set_option linter.unusedVariables false in
/-- getWorkerUrl (CodeEditor.vue lines 49-63): maps content-type labels to
worker script paths, with a generic fallback; the moduleId argument is
unused, as in the source. -/
def getWorkerUrl (moduleId : String) (label : String) : String :=
  if label = "json" then "./vs/language/json/json.worker.js"
  else if label = "css" ∨ label = "scss" ∨ label = "less" then
    "./vs/language/css/css.worker.js"
  else if label = "html" ∨ label = "handlebars" ∨ label = "razor" then
    "./vs/language/html/html.worker.js"
  else if label = "typescript" ∨ label = "javascript" then
    "./vs/language/typescript/ts.worker.js"
  else "./vs/editor/editor.worker.js"

/-- One observable side effect of the share action (CodeEditor.vue
lines 132-158), in the order the code performs them. -/
inductive ShareEvent where
  | consoleLog : String → ShareEvent
  | consoleError : String → ShareEvent
  | clipboardWriteText : String → ShareEvent
  | alert : String → ShareEvent
  | createTempField : String → ShareEvent
  | focusTempField : ShareEvent
  | selectTempField : ShareEvent
  | execCommandCopy : ShareEvent
  | removeTempField : ShareEvent
deriving Repr, DecidableEq

/-- The success alert message of shareCode. -/
def copiedMsg : String := "Code copied to clipboard!"

/-- The failure alert message of shareCode's fallback. -/
def failedMsg : String := "Failed to copy code. Please copy it manually."

/-- shareCode (CodeEditor.vue lines 132-158) as the trace of its side
effects: a no-op when no editor instance exists; otherwise logs and
attempts the clipboard write, alerting success, or on failure running the
temporary-text-field fallback, alerting by the legacy command's outcome and
removing the field either way. clipboardOk is whether the clipboard write
resolves; execCommandOk is whether document.execCommand runs without
throwing. -/
def shareCode (editor : Option String) (clipboardOk : Bool) (execCommandOk : Bool) :
    List ShareEvent :=
  match editor with
  | none => []
  | some code =>
    [ShareEvent.consoleLog ("Sharing code:"), ShareEvent.clipboardWriteText code] ++
    (if clipboardOk then
      [ShareEvent.alert copiedMsg]
    else
      [ShareEvent.consoleError ("Error copying code:"),
       ShareEvent.createTempField code,
       ShareEvent.focusTempField,
       ShareEvent.selectTempField,
       ShareEvent.execCommandCopy] ++
      (if execCommandOk then
        [ShareEvent.alert copiedMsg]
      else
        [ShareEvent.consoleError ("Fallback copy failed:"), ShareEvent.alert failedMsg]) ++
      [ShareEvent.removeTempField])

/-- Is the event a user-facing alert? -/
def isAlert : ShareEvent → Bool
  | ShareEvent.alert _ => true
  | _ => false

/-- Is the event the creation of a temporary text field? -/
def isCreateTempField : ShareEvent → Bool
  | ShareEvent.createTempField _ => true
  | _ => false

/-- Is the event an attempted clipboard write? -/
def isClipboardWrite : ShareEvent → Bool
  | ShareEvent.clipboardWriteText _ => true
  | _ => false

/-- Is the event an invocation of the legacy copy command? -/
def isExecCopy : ShareEvent → Bool
  | ShareEvent.execCommandCopy => true
  | _ => false

/-- Number of user-facing alerts in a trace. -/
def notifCount (tr : List ShareEvent) : Nat := (tr.filter isAlert).length

/-- Number of temporary text fields created in a trace. -/
def createCount (tr : List ShareEvent) : Nat := (tr.filter isCreateTempField).length

/-- Number of temporary text fields removed in a trace. -/
def removeCount (tr : List ShareEvent) : Nat :=
  (tr.filter (fun e => e = ShareEvent.removeTempField)).length

-- Helper lemmas about setStores and indexing.

theorem setStores_getElem?_ne :
    ∀ (l : List EditorState) (i j : Nat) (f : EditorState → EditorState),
      i ≠ j → (setStores l i f)[j]? = l[j]? := by
  intro l
  induction l with
  | nil => intro i j f _; cases i <;> rfl
  | cons s rest ih =>
    intro i j f hij
    cases i with
    | zero =>
      cases j with
      | zero => exact absurd rfl hij
      | succ j => simp [setStores]
    | succ i =>
      cases j with
      | zero => simp [setStores]
      | succ j =>
        simp only [setStores, List.getElem?_cons_succ]
        exact ih i j f (fun hh => hij (by rw [hh]))

theorem setStores_getElem?_eq :
    ∀ (l : List EditorState) (i : Nat) (f : EditorState → EditorState),
      (setStores l i f)[i]? = (l[i]?).map f := by
  intro l
  induction l with
  | nil => intro i f; cases i <;> rfl
  | cons s rest ih =>
    intro i f
    cases i with
    | zero => simp [setStores]
    | succ i =>
      simp only [setStores, List.getElem?_cons_succ]
      exact ih i f

theorem getElem?_append_singleton (l : List EditorState) (x : EditorState) :
    (l ++ [x])[l.length]? = some x := by
  induction l with
  | nil => rfl
  | cons s rest ih => simp

theorem getElem?_append_two (l : List EditorState) (x y : EditorState) :
    ((l ++ [x]) ++ [y])[l.length + 1]? = some y := by
  induction l with
  | nil => rfl
  | cons s rest ih => simpa using ih

theorem getElem?_append_two_fst (l : List EditorState) (x y : EditorState) :
    ((l ++ [x]) ++ [y])[l.length]? = some x := by
  induction l with
  | nil => rfl
  | cons s rest ih => simpa using ih

-- Claim theorems.

/-- C1 counterexample: on a fresh page the first useEditor call returns
handle 0 and the second call handle 1; setLanguage("python") through
handle 0 is not observed through handle 1, which still reads its own
initial "html", so the two calls do not return handles to the same
underlying state. -/
theorem useEditor_not_shared_between_calls :
    (useEditorCall (Heap.mk [])).2 = 0 ∧
    (useEditorCall (useEditorCall (Heap.mk [])).1).2 = 1 ∧
    getLanguageAt
        (setLanguageAt (useEditorCall (useEditorCall (Heap.mk [])).1).1 0 ("python")) 0
      = some ("python") ∧
    getLanguageAt
        (setLanguageAt (useEditorCall (useEditorCall (Heap.mk [])).1).1 0 ("python")) 1
      = some ("html") ∧
    ¬ getLanguageAt
        (setLanguageAt (useEditorCall (useEditorCall (Heap.mk [])).1).1 0 ("python")) 1
      = some ("python") := by
  refine ⟨rfl, rfl, rfl, rfl, ?_⟩
  decide

/-- C1 (amended): each call to useEditor allocates a fresh, independent
state: after two calls on any heap the handles differ, a setLanguage
mutation through the first handle is observed when reading back through
the first handle, while the second handle still reads its own initial
language "html". -/
theorem useEditor_fresh_per_call (h : Heap) (lang : String) :
    (useEditorCall h).2 ≠ (useEditorCall (useEditorCall h).1).2 ∧
    getLanguageAt
        (setLanguageAt (useEditorCall (useEditorCall h).1).1 (useEditorCall h).2 lang)
        (useEditorCall h).2 = some (toLowerCase lang) ∧
    getLanguageAt
        (setLanguageAt (useEditorCall (useEditorCall h).1).1 (useEditorCall h).2 lang)
        (useEditorCall (useEditorCall h).1).2 = some ("html") := by
  refine ⟨?_, ?_, ?_⟩
  · simp [useEditorCall]
  · simp only [useEditorCall, getLanguageAt, setLanguageAt]
    rw [setStores_getElem?_eq, getElem?_append_two_fst]
    rfl
  · simp only [useEditorCall, getLanguageAt, setLanguageAt, List.length_append,
      List.length_cons, List.length_nil]
    rw [setStores_getElem?_ne _ _ _ _ (by omega), getElem?_append_two]
    rfl

/-- C2: setTheme maps exactly the literal "Dark" to "vs-dark" and every
other input string to "vs"; it is a total function. -/
theorem setTheme_dark_to_vsdark_else_vs (st : EditorState) (t : String) :
    (setTheme st ("Dark")).currentTheme = "vs-dark" ∧
    (t ≠ "Dark" → (setTheme st t).currentTheme = "vs") := by
  constructor
  · rfl
  · intro hne
    simp [setTheme, hne]

theorem setTheme_dark_to_vsdark_else_vs_witness :
    (setTheme useEditor ("dark")).currentTheme = "vs" :=
  (setTheme_dark_to_vsdark_else_vs useEditor ("dark")).2 (by decide)

/-- C3: for every language string L, setLanguage followed by reading the
stored language yields exactly L.toLowerCase(); it is a total function. -/
theorem setLanguage_stores_lowercase (st : EditorState) (L : String) :
    (setLanguage st L).currentLanguage = toLowerCase L ∧
    (setLanguage st ("PyThOn")).currentLanguage = "python" ∧
    (setLanguage st ("HTML")).currentLanguage = "html" := by
  refine ⟨rfl, ?_, ?_⟩ <;> rfl

/-- C4: setCode stores the text verbatim: read-back is the identity for
every text T, the empty string and multi-line text included, with no size
bound. -/
theorem setCode_roundtrip_identity (st : EditorState) (T : String) :
    (setCode st T).defaultCode = T ∧
    (setCode st ("")).defaultCode = "" ∧
    (setCode st ("line one\nline two\n")).defaultCode = "line one\nline two\n" :=
  ⟨rfl, rfl, rfl⟩

/-- C5: when the clipboard write fails, the fallback creates exactly one
temporary field holding the code, invokes the legacy copy command exactly
once, alerts exactly once — success if the command succeeded, failure if
it threw — and the trace ends by removing the temporary field, whatever
the command's outcome. -/
theorem shareCode_clipboard_failure_fallback (code : String) (execCommandOk : Bool) :
    (shareCode (some code) false execCommandOk).filter isAlert
      = [ShareEvent.alert (if execCommandOk then copiedMsg else failedMsg)] ∧
    notifCount (shareCode (some code) false execCommandOk) = 1 ∧
    (shareCode (some code) false execCommandOk).filter isCreateTempField
      = [ShareEvent.createTempField code] ∧
    (shareCode (some code) false execCommandOk).filter isExecCopy
      = [ShareEvent.execCommandCopy] ∧
    removeCount (shareCode (some code) false execCommandOk) = 1 ∧
    (shareCode (some code) false execCommandOk).getLast?
      = some ShareEvent.removeTempField := by
  cases execCommandOk <;> exact ⟨rfl, rfl, rfl, rfl, rfl, rfl⟩

/-- C6: when the clipboard write succeeds, exactly one success alert is
produced and no temporary field is ever created or removed. -/
theorem shareCode_clipboard_success_no_dom (code : String) (execCommandOk : Bool) :
    (shareCode (some code) true execCommandOk).filter isAlert
      = [ShareEvent.alert copiedMsg] ∧
    notifCount (shareCode (some code) true execCommandOk) = 1 ∧
    createCount (shareCode (some code) true execCommandOk) = 0 ∧
    removeCount (shareCode (some code) true execCommandOk) = 0 :=
  ⟨rfl, rfl, rfl, rfl⟩

/-- C7: changeLanguage stores the lowercased selected language, closes the
language menu, and leaves the theme menu's visibility flag exactly in its
prior state; selecting "Python" stores "python". -/
theorem changeLanguage_closes_menu_frame (p : PanelState) (language : String) :
    (changeLanguage p language).store.currentLanguage = toLowerCase language ∧
    (changeLanguage p language).showLanguages = false ∧
    (changeLanguage p language).showThemes = p.showThemes ∧
    (changeLanguage p ("Python")).store.currentLanguage = "python" :=
  ⟨rfl, rfl, rfl, rfl⟩

/-- C8: getWorkerUrl maps json, css/scss/less, html/handlebars/razor and
typescript/javascript to their specific worker paths and every other label
to the generic editor worker path. -/
theorem getWorkerUrl_label_mapping (moduleId : String) (label : String) :
    (getWorkerUrl moduleId ("json") = "./vs/language/json/json.worker.js") ∧
    (getWorkerUrl moduleId ("css") = "./vs/language/css/css.worker.js" ∧
     getWorkerUrl moduleId ("scss") = "./vs/language/css/css.worker.js" ∧
     getWorkerUrl moduleId ("less") = "./vs/language/css/css.worker.js") ∧
    (getWorkerUrl moduleId ("html") = "./vs/language/html/html.worker.js" ∧
     getWorkerUrl moduleId ("handlebars") = "./vs/language/html/html.worker.js" ∧
     getWorkerUrl moduleId ("razor") = "./vs/language/html/html.worker.js") ∧
    (getWorkerUrl moduleId ("typescript") = "./vs/language/typescript/ts.worker.js" ∧
     getWorkerUrl moduleId ("javascript") = "./vs/language/typescript/ts.worker.js") ∧
    (label ∉ (["json", "css", "scss", "less", "html", "handlebars", "razor",
               "typescript", "javascript"] : List String) →
      getWorkerUrl moduleId label = "./vs/editor/editor.worker.js") := by
  refine ⟨rfl, ⟨rfl, rfl, rfl⟩, ⟨rfl, rfl, rfl⟩, ⟨rfl, rfl⟩, ?_⟩
  intro hnot
  simp only [List.mem_cons, List.not_mem_nil, or_false, not_or] at hnot
  obtain ⟨h1, h2, h3, h4, h5, h6, h7, h8, h9⟩ := hnot
  simp [getWorkerUrl, h1, h2, h3, h4, h5, h6, h7, h8, h9]

theorem getWorkerUrl_label_mapping_witness :
    getWorkerUrl ("moduleA") ("python") = "./vs/editor/editor.worker.js" :=
  (getWorkerUrl_label_mapping ("moduleA") ("python")).2.2.2.2 (by decide)

/-- C9: the store a fresh useEditor call allocates, before any setter runs,
has language "html", theme "vs-dark", an empty share link and the default
HTML sample as code. -/
theorem useEditor_initial_state (h : Heap) :
    getStoreAt (useEditorCall h).1 (useEditorCall h).2 = some useEditor ∧
    useEditor.currentLanguage = "html" ∧
    useEditor.currentTheme = "vs-dark" ∧
    useEditor.currentLink = "" ∧
    useEditor.defaultCode = defaultHtmlSample := by
  refine ⟨?_, rfl, rfl, rfl, rfl⟩
  exact getElem?_append_singleton h.stores useEditor

/-- C10: with no editor instance, shareCode is a complete no-op: an empty
trace, hence no clipboard write attempt, no alert and no temporary
field. -/
theorem shareCode_no_editor_noop (clipboardOk execCommandOk : Bool) :
    shareCode none clipboardOk execCommandOk = [] ∧
    (shareCode none clipboardOk execCommandOk).filter isClipboardWrite = [] ∧
    notifCount (shareCode none clipboardOk execCommandOk) = 0 ∧
    createCount (shareCode none clipboardOk execCommandOk) = 0 :=
  ⟨rfl, rfl, rfl, rfl⟩

end CodeSharing
